import Mathlib

/-!
A verification development for the voiceai-production repository.

The definitions below are a shallow embedding, into Lean, of the
conversation-orchestration code of the repository:

* `backend/fixed_flow_app.py` — the `SimpleReceptionist` slot extractor and
  dialogue state machine, the in-memory call-state and appointment stores,
  and the `/api/v1/voice/{tenant_id}` webhook handler with its TwiML
  rendering and outermost exception handler;
* `backend/app/utils/twilio_utils.py` — `create_twiml_response`;
* `backend/app/api/v1/endpoints/voice_async.py` — `handle_voice_call_async`
  and its signature-validation / error paths;
* `backend/app/services/voice_service.py` — the confidence-threshold branch
  of `VoiceService.process_voice_turn`;
* `backend/app/tasks/voice_tasks.py` — the retry/backoff behaviour of the
  `process_voice_async` Celery task.

Python strings are modelled as `List Char` (all inputs of interest are
ASCII); Python `re.search` calls are modelled by direct scanning functions
for the three concrete patterns the code uses, with the leftmost-match,
greedy semantics of the Python `re` module (justifications that no
backtracking is observable for these particular patterns are given at each
matcher).  Machine integers do not overflow in any modelled code path, so
`Nat` is used throughout.
-/

namespace VoiceAI

/-! ## Python string primitives on `List Char` -/

/-- ASCII `[a-z]`, the character class used by the name regexes. -/
def isLowerAZ (c : Char) : Bool := 'a' ≤ c && c ≤ 'z'

/-- Python `\s` restricted to the ASCII whitespace actually reachable in
webhook form fields. -/
def isSpaceC (c : Char) : Bool := c.isWhitespace

/-- Python `str.lower()` (ASCII). -/
def pyLower (l : List Char) : List Char := l.map Char.toLower

/-- Python `str.strip()`: drop whitespace from both ends. -/
def stripL (l : List Char) : List Char :=
  ((l.dropWhile isSpaceC).reverse.dropWhile isSpaceC).reverse

/-- Python substring containment `pat in hay`. -/
def inStr (pat : List Char) : List Char → Bool
  | [] => pat.isPrefixOf []
  | c :: t => pat.isPrefixOf (c :: t) || inStr pat t

/-- `pat in hay` at the `String` level. -/
def strContains (hay pat : String) : Bool := inStr pat.toList hay.toList

/-- Helper for `pyTitle`: the boolean records whether the previous character
was alphabetic (Python uppercases a letter exactly when it does not follow
a cased character). -/
def pyTitleGo : Bool → List Char → List Char
  | _, [] => []
  | prev, c :: t =>
    (if c.isAlpha then (if prev then c.toLower else c.toUpper) else c) ::
      pyTitleGo c.isAlpha t

/-- Python `str.title()` (ASCII). -/
def pyTitle (l : List Char) : List Char := pyTitleGo false l

/-- Python `str.split()`: split on whitespace runs, dropping empty pieces. -/
def wordsOf (l : List Char) : List (List Char) :=
  (l.splitOnP isSpaceC).filter (fun w => !w.isEmpty)

/-! ## The three name patterns of `extract_info_from_speech` (step 1)

Pattern 1: `(?:my name is|i'm|this is|i am)\s+([a-z]+(?:\s+[a-z]+)?)`.
Pattern 2: `([a-z]{2,}\s+[a-z]{2,})`.
Pattern 3: `([a-z]{3,})`.

Each matcher below decides whether the pattern matches at the *start* of
its argument and returns the captured group.  `re.search` semantics
(leftmost match position) is recovered by `searchAt`, which scans
positions left to right.  For these patterns greedy matching needs no
observable backtracking: every quantified class is `[a-z]` or `\s`, and
shortening a greedy run always leaves the next character inside the same
class, where the following sub-pattern (which starts with the *other*
class or end-of-pattern) still fails. -/

/-- The literal alternation prefixes of name pattern 1.  The speech string
is lowercased before matching, so `re.IGNORECASE` is immaterial.  (The
apostrophe of the second alternative is built from its code point.) -/
def namePrefixPats : List (List Char) :=
  [("my name is").toList, ['i', Char.ofNat 39, 'm'], ("this is").toList,
   ("i am").toList]

/-- Name pattern 1 anchored at the start of `l`. -/
def matchP1At (l : List Char) : Option (List Char) :=
  match namePrefixPats.find? (fun p => p.isPrefixOf l) with
  | none => none
  | some p =>
    let r := l.drop p.length
    let ws := r.takeWhile isSpaceC
    if ws.isEmpty then none else
    let r2 := r.drop ws.length
    let w1 := r2.takeWhile isLowerAZ
    if w1.isEmpty then none else
    let r3 := r2.drop w1.length
    let ws2 := r3.takeWhile isSpaceC
    let w2 := (r3.drop ws2.length).takeWhile isLowerAZ
    if ws2.isEmpty || w2.isEmpty then some w1 else some (w1 ++ ws2 ++ w2)

/-- Name pattern 2 anchored at the start of `l`. -/
def matchP2At (l : List Char) : Option (List Char) :=
  let w1 := l.takeWhile isLowerAZ
  if w1.length < 2 then none else
  let r := l.drop w1.length
  let ws := r.takeWhile isSpaceC
  if ws.isEmpty then none else
  let w2 := (r.drop ws.length).takeWhile isLowerAZ
  if w2.length < 2 then none else some (w1 ++ ws ++ w2)

/-- Name pattern 3 anchored at the start of `l`. -/
def matchP3At (l : List Char) : Option (List Char) :=
  let w := l.takeWhile isLowerAZ
  if w.length < 3 then none else some w

/-- `re.search`: try the anchored matcher at every position, leftmost
position wins. -/
def searchAt (m : List Char → Option (List Char)) : List Char → Option (List Char)
  | [] => m []
  | c :: t =>
    match m (c :: t) with
    | some g => some g
    | none => searchAt m t

/-! ## The phone pattern (step 2): `(\d{3}[-.\s]?\d{3}[-.\s]?\d{4})` -/

/-- The separator class `[-.\s]`. -/
def isSepC (c : Char) : Bool := c = '-' || c = '.' || isSpaceC c

/-- Take exactly `n` digit characters from the front. -/
def takeDigits : Nat → List Char → Option (List Char × List Char)
  | 0, l => some ([], l)
  | _ + 1, [] => none
  | n + 1, c :: t =>
    if c.isDigit then (takeDigits n t).map (fun p => (c :: p.1, p.2)) else none

/-- The phone pattern anchored at the start of `l`.  The optional
separator `[-.\s]?` is matched greedily; since separator characters are
never digits, consuming one can never block a match that skipping it
would have allowed, so no backtracking is observable. -/
def matchPhoneAt (l : List Char) : Option (List Char) :=
  match takeDigits 3 l with
  | none => none
  | some (d1, r1) =>
    let s1r :=
      match r1 with
      | c :: t => if isSepC c then ([c], t) else (([] : List Char), r1)
      | [] => (([] : List Char), r1)
    match takeDigits 3 s1r.2 with
    | none => none
    | some (d2, r3) =>
      let s2r :=
        match r3 with
        | c :: t => if isSepC c then ([c], t) else (([] : List Char), r3)
        | [] => (([] : List Char), r3)
      match takeDigits 4 s2r.2 with
      | none => none
      | some (d3, _) => some (d1 ++ s1r.1 ++ d2 ++ s2r.1 ++ d3)

/-! ## `SimpleReceptionist.extract_info_from_speech` -/

/-- The filler words rejected in a name candidate
(`fixed_flow_app.py:84`). -/
def name_filter_words : List (List Char) :=
  [("calling").toList, ("appointment").toList, ("schedule").toList,
   ("like").toList, ("want").toList, ("dental").toList]

/-- Apply the `.title()` / filler-word post-processing the code performs on
a regex match; a candidate containing a filler word is discarded and the
loop moves on to the next pattern. -/
def tryNamePattern (m : Option (List Char)) : Option (List Char) :=
  match m with
  | none => none
  | some g =>
    let nm := pyTitle g
    if name_filter_words.any (fun w => inStr w (pyLower nm)) then none
    else some nm

/-- `any(word in speech for word in ws)`. -/
def containsAny (l : List Char) (ws : List String) : Bool :=
  ws.any (fun w => inStr w.toList l)

/-- `SimpleReceptionist.extract_info_from_speech`
(`fixed_flow_app.py:67-117`), the per-step slot extractor.  `none` models
Python `None`.  Note that for steps 3 and 4 every branch returns a value
(the final `else` returns the default), so extraction never fails there. -/
def extract_info_from_speech (speech : String) (step : Nat) : Option String :=
  let l := stripL (pyLower speech.toList)
  if step = 1 then
    match tryNamePattern (searchAt matchP1At l) with
    | some nm => some ⟨nm⟩
    | none =>
      match tryNamePattern (searchAt matchP2At l) with
      | some nm => some ⟨nm⟩
      | none =>
        match tryNamePattern (searchAt matchP3At l) with
        | some nm => some ⟨nm⟩
        | none =>
          if (wordsOf l).length ≤ 3 && 2 < l.length then some ⟨pyTitle l⟩
          else none
  else if step = 2 then
    (searchAt matchPhoneAt l).map (fun g => (⟨g⟩ : String))
  else if step = 3 then
    if containsAny l ["clean", "cleaning"] then some "cleaning"
    else if containsAny l ["check", "checkup", "exam"] then some "checkup"
    else if containsAny l ["consult", "consultation", "new"] then some "consultation"
    else if containsAny l ["emergency", "urgent", "pain", "hurt"] then some "emergency"
    else some "checkup"
  else if step = 4 then
    if containsAny l ["morning", "am", "early"] then some "morning"
    else if containsAny l ["afternoon", "pm", "later"] then some "afternoon"
    else some "morning"
  else none

/-! ## Call state, appointments and `SimpleReceptionist.generate_response`

`fixed_flow_app.py` keeps per-call state in the global dict `call_states`
(`{"step": int, "data": {...}, "attempts": int}`) and completed bookings in
the global dict `appointments`.  The `data` dict has at most the four keys
`"name"`, `"phone"`, `"type"`, `"time"`; they are modelled as the four
`Option String` fields below (`atype`/`atime` stand for the dict keys
`"type"`/`"time"`). -/

/-- One entry of the global `call_states` dict. -/
structure CallData where
  step : Nat
  name : Option String
  phone : Option String
  atype : Option String
  atime : Option String
  attempts : Nat
deriving DecidableEq, Repr

/-- The fresh record created by `get_call_data` for an unknown `call_id`. -/
def freshCall : CallData := ⟨0, none, none, none, none, 0⟩

/-- One entry of the global `appointments` dict
(`fixed_flow_app.py:193-200`; the wall-clock `created` timestamp is not
modelled). -/
structure Appointment where
  confirmation_number : String
  name : String
  phone : String
  atype : String
  atime : String
deriving DecidableEq, Repr

/-- The global mutable state of the module: the `call_states` dict
(modelled as an association list keyed by `call_id`) and the ordered
`appointments` store (only its size feeds back into the code, via the
generated id). -/
structure World where
  call_states : List (String × CallData)
  appointments : List Appointment
deriving DecidableEq, Repr

/-- Dict lookup `call_states.get(call_id)`. -/
def lookupState (l : List (String × CallData)) (k : String) : Option CallData :=
  (l.find? (fun p => p.1 == k)).map (fun p => p.2)

/-- Dict deletion `del call_states[call_id]`. -/
def eraseState (l : List (String × CallData)) (k : String) : List (String × CallData) :=
  l.filter (fun p => !(p.1 == k))

/-- Dict write `call_states[call_id] = cd`. -/
def setState (l : List (String × CallData)) (k : String) (cd : CallData) :
    List (String × CallData) :=
  (k, cd) :: eraseState l k

/-- Python truthiness of the optional `speech_result` argument. -/
def truthy : Option String → Bool
  | none => false
  | some s => !s.toList.isEmpty

/-- Store an extracted value in the slot of the given step
(`fixed_flow_app.py:133-140`). -/
def setSlot (cd : CallData) (step : Nat) (v : String) : CallData :=
  match step with
  | 1 => { cd with name := some v }
  | 2 => { cd with phone := some v }
  | 3 => { cd with atype := some v }
  | 4 => { cd with atime := some v }
  | _ => cd

/-- Store the per-step default applied on attempt exhaustion
(`fixed_flow_app.py:152-160`). -/
def applyDefault (cd : CallData) (step : Nat) : CallData :=
  match step with
  | 1 => { cd with name := some "Customer" }
  | 2 => { cd with phone := some "Unknown" }
  | 3 => { cd with atype := some "checkup" }
  | 4 => { cd with atime := some "morning" }
  | _ => cd

/-- The speech-processing phase of `generate_response`
(`fixed_flow_app.py:127-163`): run the extractor when speech was supplied
and the call is past the greeting; on success store the slot, advance and
reset attempts; on failure increment attempts and, at the second failure,
store the default and advance. -/
def process_speech (cd : CallData) (speech : Option String) : CallData :=
  if truthy speech && decide (0 < cd.step) then
    match extract_info_from_speech (speech.getD "") cd.step with
    | some v => { setSlot cd cd.step v with step := cd.step + 1, attempts := 0 }
    | none =>
      if 2 ≤ cd.attempts + 1 then
        { applyDefault cd cd.step with step := cd.step + 1, attempts := 0 }
      else { cd with attempts := cd.attempts + 1 }
  else cd

/-- `f"{n:04d}"`. -/
def pad4 (n : Nat) : String :=
  let s := toString n
  String.mk (List.replicate (4 - s.length) '0') ++ s

/-- Build the appointment record created at completion
(`fixed_flow_app.py:192-200`), with the `dict.get` defaults of the code. -/
def mkAppointment (appts : List Appointment) (cd : CallData) : Appointment :=
  { confirmation_number := "APT_" ++ pad4 (appts.length + 1)
  , name := cd.name.getD "Customer"
  , phone := cd.phone.getD "Unknown"
  , atype := cd.atype.getD "checkup"
  , atime := cd.atime.getD "morning" }

/-- The fixed greeting of step 0 (`fixed_flow_app.py:170`). -/
def greeting_text : String :=
  "Thank you for calling Demo Dental Practice! I\x27m here to help schedule your appointment. May I get your full name please?"

/-- The confirmation utterance of the completion branch
(`fixed_flow_app.py:214`). -/
def confirm_text (apt : Appointment) : String :=
  "Perfect! I\x27ve scheduled your " ++ apt.atype ++ " appointment for " ++
    apt.name ++ ". We\x27ll call you at " ++ apt.phone ++ " to confirm your " ++
    apt.atime ++ " appointment. Your confirmation number is " ++
    apt.confirmation_number ++ ". Thank you for choosing Demo Dental Practice!"

/-- The response phase of `generate_response`
(`fixed_flow_app.py:165-220`): produce `(text, is_complete)` from the
(possibly mutated) call state, together with the call state to persist
(`none` models `del call_states[call_id]`) and the new appointments store. -/
def respond (appts : List Appointment) (cd : CallData) :
    (String × Bool) × Option CallData × List Appointment :=
  match cd.step with
  | 0 => ((greeting_text, false), some { cd with step := 1 }, appts)
  | 1 =>
    ((if 2 ≤ cd.attempts then
        "Let me get your phone number. What\x27s the best number to reach you?"
      else
        "I didn\x27t catch your name clearly. Could you please tell me your full name?",
      false), some cd, appts)
  | 2 =>
    ((match cd.name with
      | some n => "Thank you, " ++ n ++ "! What\x27s the best phone number to reach you?"
      | none => "What\x27s the best phone number to reach you?",
      false), some cd, appts)
  | 3 =>
    (("What type of appointment do you need? We offer cleaning, checkup, consultation, or emergency appointments.",
      false), some cd, appts)
  | 4 =>
    (("Great! Would you prefer a morning or afternoon appointment for your " ++
        cd.atype.getD "appointment" ++ "?", false), some cd, appts)
  | _ + 5 =>
    let apt := mkAppointment appts cd
    ((confirm_text apt, true), none, appts ++ [apt])

/-- `SimpleReceptionist.generate_response` (`fixed_flow_app.py:119-220`)
acting on the module's global state: look up or create the call state,
run the speech-processing phase, then the response phase, and persist or
delete the call state as the code does. -/
def generate_response (w : World) (call_id : String) (speech : Option String) :
    (String × Bool) × World :=
  let cd0 := (lookupState w.call_states call_id).getD freshCall
  let cd1 := process_speech cd0 speech
  let r := respond w.appointments cd1
  (r.1,
   ⟨match r.2.1 with
    | some cd2 => setState w.call_states call_id cd2
    | none => eraseState w.call_states call_id,
    r.2.2⟩)

/-! ## TwiML rendering

`voice_webhook` (`fixed_flow_app.py:245-294`) renders its TwiML as literal
strings; `create_twiml_response` (`twilio_utils.py:90-180`) builds a
`VoiceResponse` object.  For substring-level claims the literal strings are
embedded verbatim; for control-flow claims the same markup is transcribed
into the verb vocabulary below, whose silent-caller semantics (`runDoc`,
`runSilent`) follows Twilio document execution: verbs run top to bottom, a
`Gather` that receives no input before its timeout falls through to the
next verb, `Redirect` abandons the rest of the document and fetches a new
one, and `Hangup`/`Dial`/end-of-document end the document. -/

/-- The TwiML verb vocabulary used by the repository (the `voice`
attribute and the `Gather`-nested `Say`/`Pause` are presentation-only and
not modelled). -/
inductive Verb where
  | say (text : String)
  | gather (timeout : Nat) (action : String)
  | redirect (url : String)
  | dial (number : String)
  | pause
  | record
  | hangup
deriving DecidableEq, Repr

/-- An HTTP response as the telephony provider sees it. -/
structure HttpResponse where
  status : Nat
  body : String
deriving DecidableEq, Repr

/-- The hangup TwiML of `voice_webhook` (`fixed_flow_app.py:264-268`). -/
def hangup_twiml (text : String) : String :=
  "<?xml version=\"1.0\" encoding=\"UTF-8\"?>\n<Response>\n    <Say voice=\"Polly.Joanna\">" ++
    text ++ "</Say>\n    <Hangup/>\n</Response>"

/-- The continue TwiML of `voice_webhook` (`fixed_flow_app.py:271-283`). -/
def gather_twiml (tenant_id text : String) : String :=
  "<?xml version=\"1.0\" encoding=\"UTF-8\"?>\n<Response>\n    <Say voice=\"Polly.Joanna\">" ++
    text ++
    "</Say>\n    <Gather input=\"speech\" timeout=\"6\" speechTimeout=\"2\" action=\"/api/v1/voice/" ++
    tenant_id ++
    "\">\n        <Say voice=\"Polly.Joanna\"></Say>\n    </Gather>\n    <Say voice=\"Polly.Joanna\">I didn\x27t hear you. Let me try once more.</Say>\n    <Gather input=\"speech\" timeout=\"5\" speechTimeout=\"2\" action=\"/api/v1/voice/" ++
    tenant_id ++
    "\">\n        <Say voice=\"Polly.Joanna\"></Say>\n    </Gather>\n    <Say voice=\"Polly.Joanna\">Thank you for calling Demo Dental Practice. Please call back when you\x27re ready. Goodbye!</Say>\n    <Hangup/>\n</Response>"

/-- The error TwiML of `voice_webhook`'s exception handler
(`fixed_flow_app.py:289-293`). -/
def error_twiml : String :=
  "<?xml version=\"1.0\" encoding=\"UTF-8\"?>\n<Response>\n    <Say voice=\"Polly.Joanna\">Thank you for calling Demo Dental Practice. Please try calling back in a moment.</Say>\n    <Hangup/>\n</Response>"

/-- The `try`/`except` rendering of `voice_webhook`
(`fixed_flow_app.py:258-294`): an `ok` outcome of `generate_response` is
rendered as hangup or continue TwiML; any exception is converted into the
fixed error TwiML.  Every path answers HTTP 200. -/
def voice_webhook_render (tenant_id : String)
    (outcome : Except String (String × Bool)) : HttpResponse :=
  match outcome with
  | Except.ok (text, true) => ⟨200, hangup_twiml text⟩
  | Except.ok (text, false) => ⟨200, gather_twiml tenant_id text⟩
  | Except.error _ => ⟨200, error_twiml⟩

/-- The full webhook on its non-throwing path: run the receptionist and
render. -/
def voice_webhook (w : World) (tenant_id call_id : String) (speech : Option String) :
    HttpResponse × World :=
  let r := generate_response w call_id speech
  (voice_webhook_render tenant_id (Except.ok r.1), r.2)

/-- The continue TwiML of `voice_webhook` (`fixed_flow_app.py:271-283`)
transcribed into the verb vocabulary: prompt, first gather, re-prompt,
second gather, goodbye, hangup. -/
def fixed_flow_continue_verbs (tenant_id text : String) : List Verb :=
  [Verb.say text,
   Verb.gather 6 ("/api/v1/voice/" ++ tenant_id),
   Verb.say "I didn\x27t hear you. Let me try once more.",
   Verb.gather 5 ("/api/v1/voice/" ++ tenant_id),
   Verb.say "Thank you for calling Demo Dental Practice. Please call back when you\x27re ready. Goodbye!",
   Verb.hangup]

/-- `create_twiml_response` (`twilio_utils.py:90-180`), with the code's
parameter order `(message, voice, gather_input, gather_timeout,
next_action_url, dial_number, hangup, record_call)`.  Note the
gather branch (`twilio_utils.py:147-164`) follows its fall-through
re-prompt with a `Redirect` back to the action URL and never emits a
`Hangup`. -/
def create_twiml_response (message : String) (_voice : String)
    (gather_input : Bool) (gather_timeout : Nat) (next_action_url : Option String)
    (dial_number : Option String) (hangupFlag : Bool) (record_call : Bool) :
    List Verb :=
  (if record_call then [Verb.record] else []) ++
  (if message.toList.isEmpty then [] else [Verb.say message]) ++
  (match dial_number with
   | some n =>
     [Verb.dial n,
      Verb.say "I\x27m sorry, I couldn\x27t connect you. Please call back later."]
   | none =>
     if gather_input && !hangupFlag then
       [Verb.gather gather_timeout (next_action_url.getD "/gather"),
        Verb.say "I didn\x27t hear anything. Please let me know how I can help you.",
        Verb.redirect (next_action_url.getD "/gather")]
     else []) ++
  (if hangupFlag then [Verb.hangup] else [])

/-- Execute one TwiML document for a caller who never speaks: collect the
texts spoken, and report `some url` when the document ends in a redirect
to follow, `none` when the document ends the call. -/
def runDoc : List Verb → List String × Option String
  | [] => ([], none)
  | Verb.say t :: rest => let r := runDoc rest; (t :: r.1, r.2)
  | Verb.gather _ _ :: rest => runDoc rest
  | Verb.pause :: rest => runDoc rest
  | Verb.record :: rest => runDoc rest
  | Verb.hangup :: _ => ([], none)
  | Verb.dial _ :: _ => ([], none)
  | Verb.redirect url :: _ => ([], some url)

/-- Run a silent call against a server (`url ↦ document`), following at
most `fuel` redirects: `some trace` when the call ends, `none` when the
redirect budget is exhausted with the call still going. -/
def runSilent (server : String → List Verb) : Nat → List Verb → Option (List String)
  | 0, doc =>
    match runDoc doc with
    | (ts, none) => some ts
    | (_, some _) => none
  | f + 1, doc =>
    match runDoc doc with
    | (ts, none) => some ts
    | (ts, some url) => (runSilent server f (server url)).map (fun more => ts ++ more)

/-! ## The async endpoint `handle_voice_call_async`
(`voice_async.py:23-92`) -/

/-- A Python exception reaching the endpoint's `except Exception` handler:
either a `fastapi.HTTPException` raised by the endpoint's own guards or
any other exception. -/
inductive PyExc where
  | http (code : Nat) (detail : String)
  | generic (msg : String)
deriving DecidableEq, Repr

/-- The error message of the endpoint's exception handler
(`voice_async.py:89`). -/
def async_error_message : String :=
  "I\x27m sorry, we\x27re experiencing technical difficulties. Please call back later."

/-- The `try` body of `handle_voice_call_async` (`voice_async.py:40-82`):
signature, tenant and voice-config guards each `raise HTTPException`;
the success path renders a greeting gather pointing at the
`process-async` continuation. -/
def handle_voice_call_async_body (sig_valid tenant_found config_found : Bool)
    (tenant_id greeting voice_name : String) : Except PyExc (List Verb) :=
  if !sig_valid then Except.error (PyExc.http 401 "Invalid signature")
  else if !tenant_found then Except.error (PyExc.http 404 "Tenant not found")
  else if !config_found then Except.error (PyExc.http 404 "Voice configuration not found")
  else Except.ok (create_twiml_response greeting voice_name true 10
    (some ("/api/v1/voice/" ++ tenant_id ++ "/process-async")) none false false)

/-- The endpoint's outer `except Exception` (`voice_async.py:84-92`): it
catches *every* exception — the endpoint's own `HTTPException(401)`
included — and answers HTTP 200 with the error TwiML
(`create_twiml_response(message=..., hangup=True)`). -/
def handle_voice_call_async_result (body : Except PyExc (List Verb)) : Nat × List Verb :=
  match body with
  | Except.ok verbs => (200, verbs)
  | Except.error _ =>
    (200, create_twiml_response async_error_message "Polly.Joanna" true 5 none none true false)

/-- `handle_voice_call_async` (`voice_async.py:23-92`) end to end. -/
def handle_voice_call_async (sig_valid tenant_found config_found : Bool)
    (tenant_id greeting voice_name : String) : Nat × List Verb :=
  handle_voice_call_async_result
    (handle_voice_call_async_body sig_valid tenant_found config_found
      tenant_id greeting voice_name)

/-- The no-input continuation document of `process_voice_input_async`
(`voice_async.py:154-161`): rendered by `create_twiml_response` with the
`process-async` URL of the same endpoint as the action. -/
def async_no_input_message : String :=
  "I didn\x27t receive any input. Could you please try again?"

/-- A concrete `process-async` URL (tenant `demo`). -/
def process_async_url : String := "/api/v1/voice/demo/process-async"

/-- The rendered no-input document (`voice_async.py:155-160`). -/
def async_no_input_doc : List Verb :=
  create_twiml_response async_no_input_message "nova" true 10
    (some process_async_url) none false false

/-- The `process-async` endpoint as a server for a silent caller: every
fetch of the action URL finds no `SpeechResult`/`RecordingUrl` and renders
the same no-input document again. -/
def async_no_input_server : String → List Verb := fun _ => async_no_input_doc

/-! ## Confidence policy of `VoiceService.process_voice_turn`
(`voice_service.py:106-172, 358-381`) -/

/-- The tenant voice configuration fields consumed by the confidence
branch (`app/models/voice_config.py:63-64`; schema defaults are
threshold `0.7`, `fallback_to_human = True`).  Confidences are `ℚ`
(the code compares plain Python floats, no float arithmetic occurs on
this path). -/
structure VoiceConfig where
  confidence_threshold : ℚ
  fallback_to_human : Bool
deriving DecidableEq

/-- The fields of the dict a voice turn returns that the confidence claims
are about. -/
structure TurnOutcome where
  success : Bool
  text_response : String
  transfer_to_human : Bool
  low_confidence : Bool
  confidence : ℚ
deriving DecidableEq

/-- The fixed transfer text of `_handle_low_confidence`
(`voice_service.py:366`). -/
def transfer_text : String :=
  "I want to make sure I help you correctly. Let me transfer you to one of our team members who can better assist you."

/-- `VoiceService._handle_low_confidence` (`voice_service.py:358-381`). -/
def handle_low_confidence (confidence : ℚ) : TurnOutcome :=
  ⟨true, transfer_text, true, true, confidence⟩

/-- Steps 4-8 of `VoiceService.process_voice_turn`
(`voice_service.py:114-172`): the confidence check transfers only when
`fallback_to_human` is set; otherwise processing continues and the AI
reply (optionally enhanced with scheduling text, abstracted as
`enhance`) is spoken. -/
def process_voice_turn_reply (cfg : VoiceConfig) (ai_response : String)
    (confidence : ℚ) (enhance : String → String) (intent_schedule : Bool) :
    TurnOutcome :=
  let proceed : TurnOutcome :=
    ⟨true, if intent_schedule then enhance ai_response else ai_response,
     false, false, confidence⟩
  if confidence < cfg.confidence_threshold then
    if cfg.fallback_to_human then handle_low_confidence confidence else proceed
  else proceed

/-! ## Retry behaviour of the `process_voice_async` Celery task
(`voice_tasks.py:21-105`, polled through `get_voice_task_status`,
`voice_tasks.py:403-412`)

The task is declared with `max_retries=3`, `default_retry_delay=10`.  On
an exception it re-raises `self.retry(countdown=10 * 2**retries)` while
`retries < max_retries`, and once retries are exhausted it *returns* the
dict `{"success": False, "error": ...}`.  Celery marks a task that
returns as `SUCCESS` and a task that raises a non-retry exception as
`FAILURE`; `get_voice_task_status` reports that stored status. -/

/-- Celery task states. -/
inductive CeleryStatus where
  | PENDING
  | PROCESSING
  | RETRY
  | SUCCESS
  | FAILURE
deriving DecidableEq, Repr

/-- The parts of the task's returned dict the claims are about. -/
structure VoicePayload where
  success : Bool
  err : Option String
deriving DecidableEq, Repr

/-- How one execution attempt of the task ends. -/
inductive TaskEnd where
  | returned (r : VoicePayload)
  | raised (e : String)
deriving DecidableEq, Repr

/-- Outcome of one attempt: a terminal end or a scheduled retry. -/
inductive AttemptOutcome where
  | done (e : TaskEnd)
  | retryAfter (countdown : Nat)
deriving DecidableEq, Repr

/-- `max_retries=3` (`voice_tasks.py:24`). -/
def max_retries : Nat := 3

/-- `default_retry_delay=10` (`voice_tasks.py:25`). -/
def default_retry_delay : Nat := 10

/-- One attempt of `process_voice_async` at retry count `retries`, with
the fallible body abstracted as `fails` (`none` = the internal processing
returns normally, `some e` = it raises `e`): mirrors
`voice_tasks.py:50-105`.  On the success path the task returns the result
dict; on an exception it retries with countdown
`default_retry_delay * 2 ** retries` while retries remain, else returns
the error dict — it does not re-raise. -/
def process_voice_async_attempt (fails : Nat → Option String) (retries : Nat) :
    AttemptOutcome :=
  match fails retries with
  | none => AttemptOutcome.done (TaskEnd.returned ⟨true, none⟩)
  | some e =>
    if retries < max_retries then
      AttemptOutcome.retryAfter (default_retry_delay * 2 ^ retries)
    else AttemptOutcome.done (TaskEnd.returned ⟨false, some e⟩)

/-- Celery's driver: run attempts, re-invoking the task after each
scheduled retry, collecting the countdowns.  `fuel` bounds the recursion;
`runTask` supplies `max_retries + 1`, which the retry guard makes
sufficient. -/
def driveTask (fails : Nat → Option String) : Nat → Nat → List Nat × TaskEnd
  | 0, _ => ([], TaskEnd.raised "out of fuel")
  | fuel + 1, r =>
    match process_voice_async_attempt fails r with
    | AttemptOutcome.done e => ([], e)
    | AttemptOutcome.retryAfter c =>
      let nxt := driveTask fails fuel (r + 1)
      (c :: nxt.1, nxt.2)

/-- The complete lifecycle of one submitted `process_voice_async` job:
the backoff countdowns it slept and how it ended. -/
def runTask (fails : Nat → Option String) : List Nat × TaskEnd :=
  driveTask fails (max_retries + 1) 0

/-- Celery's terminal state for a finished task: returning yields
`SUCCESS`, raising (other than retry) yields `FAILURE`.  This is the
status `get_voice_task_status` (`voice_tasks.py:403-412`) reports. -/
def celery_final_status : TaskEnd → CeleryStatus
  | TaskEnd.returned _ => CeleryStatus.SUCCESS
  | TaskEnd.raised _ => CeleryStatus.FAILURE

/-- A job whose internal processing fails on every attempt. -/
def alwaysFailing : Nat → Option String := fun _ => some "connection error"

/-! ## Concrete scenario worlds used by the idempotence claims -/

/-- Fresh module state: no calls, no appointments. -/
def c1_w0 : World := ⟨[], []⟩

/-- After the greeting turn of call `c1`. -/
def c1_w1 : World := (generate_response c1_w0 "c1" none).2

/-- After the caller gives their name. -/
def c1_w2 : World := (generate_response c1_w1 "c1" (some "My name is Jane Doe")).2

/-- The phone-number event delivered once. -/
def c1_once : World := (generate_response c1_w2 "c1" (some "555-123-4567")).2

/-- The same phone-number event delivered a second time. -/
def c1_twice : World := (generate_response c1_once "c1" (some "555-123-4567")).2

/-- Continue the single-delivery run: the caller gives the type. -/
def c1_w3 : World := (generate_response c1_once "c1" (some "cleaning please")).2

/-- The finalizing turn: the caller gives the time, the booking is
created. -/
def c1_final : (String × Bool) × World := generate_response c1_w3 "c1" (some "morning works")

/-- The finalizing event redelivered after completion. -/
def c1_redelivered : (String × Bool) × World :=
  generate_response c1_final.2 "c1" (some "morning works")

/-- A world holding one call parked at the greeting step, for witnesses. -/
def c10_world : World := ⟨[("c0", freshCall)], []⟩

/-! ## Helper lemmas -/

theorem lookup_setState (l : List (String × CallData)) (k : String) (cd : CallData) :
    lookupState (setState l k cd) k = some cd := by
  simp [lookupState, setState, List.find?]

theorem find_eraseState (l : List (String × CallData)) (k : String) :
    (eraseState l k).find? (fun p => p.1 == k) = none := by
  induction l with
  | nil => rfl
  | cons a t ih =>
    unfold eraseState at ih ⊢
    cases hb : (a.1 == k) with
    | true =>
      simp only [List.filter_cons, hb, Bool.not_true, Bool.false_eq_true, if_false]
      exact ih
    | false =>
      simp only [List.filter_cons, hb, Bool.not_false, if_true, List.find?, Bool.false_eq_true]
      exact ih

theorem lookup_eraseState (l : List (String × CallData)) (k : String) :
    lookupState (eraseState l k) k = none := by
  simp [lookupState, find_eraseState]

theorem process_speech_step_le (cd : CallData) (sp : Option String) :
    cd.step ≤ (process_speech cd sp).step := by
  unfold process_speech
  split
  · cases hext : extract_info_from_speech (sp.getD "") cd.step with
    | none =>
      by_cases h2 : 2 ≤ cd.attempts + 1
      · rw [if_pos h2]; exact Nat.le_succ cd.step
      · rw [if_neg h2]
    | some v => exact Nat.le_succ cd.step
  · exact Nat.le_refl cd.step

theorem respond_state (appts : List Appointment) (cd : CallData) :
    (respond appts cd).2.1 = none ∨
    ∃ cd2, (respond appts cd).2.1 = some cd2 ∧ cd.step ≤ cd2.step := by
  obtain ⟨st, nm, ph, ty, tm, att⟩ := cd
  rcases st with _ | _ | _ | _ | _ | n
  · exact Or.inr ⟨_, rfl, Nat.zero_le 1⟩
  · exact Or.inr ⟨_, rfl, Nat.le_refl 1⟩
  · exact Or.inr ⟨_, rfl, Nat.le_refl 2⟩
  · exact Or.inr ⟨_, rfl, Nat.le_refl 3⟩
  · exact Or.inr ⟨_, rfl, Nat.le_refl 4⟩
  · exact Or.inl rfl

theorem generate_response_call_states (w : World) (call_id : String) (speech : Option String) :
    ((generate_response w call_id speech).2).call_states =
      match (respond w.appointments
          (process_speech ((lookupState w.call_states call_id).getD freshCall) speech)).2.1 with
      | some cd2 => setState w.call_states call_id cd2
      | none => eraseState w.call_states call_id := rfl

theorem driveTask_length_le (g : Nat → Option String) :
    ∀ fuel r, (driveTask g fuel r).1.length ≤ 3 - r := by
  intro fuel
  induction fuel with
  | zero => intro r; simp [driveTask]
  | succ f ih =>
    intro r
    unfold driveTask
    cases hg : g r with
    | none => simp [process_voice_async_attempt, hg]
    | some e =>
      by_cases hr : r < max_retries
      · have hr3 : r < 3 := hr
        have hnext := ih (r + 1)
        simp only [process_voice_async_attempt, hg, hr, if_pos, List.length_cons]
        omega
      · simp [process_voice_async_attempt, hg, hr]

/-! ## Claim theorems -/

/-- C1: delivering the same webhook event twice for a `call_id` is *not*
idempotent in `fixed_flow_app.py`.  Redelivering the phone utterance
`"555-123-4567"` once leaves the session at step 3 with no type slot;
delivering it a second time advances to step 4 and silently stores the
default type `"checkup"`.  Redelivering the finalizing event after
completion does not return the existing confirmation either: the call
state was deleted, so the receptionist answers with the fresh-call
greeting (no duplicate appointment is created by that immediate
redelivery). -/
theorem C1_duplicate_delivery_not_idempotent :
    ((lookupState c1_once.call_states "c1").map CallData.step = some 3 ∧
     (lookupState c1_once.call_states "c1").map CallData.atype = some none) ∧
    ((lookupState c1_twice.call_states "c1").map CallData.step = some 4 ∧
     (lookupState c1_twice.call_states "c1").map CallData.atype = some (some "checkup")) ∧
    (c1_final.1.2 = true ∧
     strContains c1_final.1.1 "APT_0001" = true ∧
     c1_final.2.appointments.length = 1 ∧
     lookupState c1_final.2.call_states "c1" = none) ∧
    (c1_redelivered.1.1 = greeting_text ∧
     c1_redelivered.1.2 = false ∧
     c1_redelivered.2.appointments.length = 1) := by
  decide

/-- C2 (counterexample): the claimed example `"(555) 123-4567"` does not
match the phone pattern `\d{3}[-.\s]?\d{3}[-.\s]?\d{4}` — the optional
separator is a single character, so the parenthesized area code is never
accepted — and the extractor yields no phone value for it. -/
theorem C2_paren_phone_not_matched :
    extract_info_from_speech "(555) 123-4567" 2 = none := by decide

/-- C2 (amended): the extractor's behaviour on the four example inputs:
`"My name is Jane Doe"` yields the name `"Jane Doe"`;
`"555-123-4567"` yields the matched string verbatim (ten digits with
their separators, not further normalized); `"(555) 123-4567"` yields no
phone value; `"I need an emergency visit"` yields the type
`"emergency"` (the extractor returns only the type string — no urgent
flag exists in this module); `"afternoon works"` yields `"afternoon"`. -/
theorem C2_extraction_examples :
    extract_info_from_speech "My name is Jane Doe" 1 = some "Jane Doe" ∧
    extract_info_from_speech "555-123-4567" 2 = some "555-123-4567" ∧
    extract_info_from_speech "(555) 123-4567" 2 = none ∧
    extract_info_from_speech "I need an emergency visit" 3 = some "emergency" ∧
    extract_info_from_speech "afternoon works" 4 = some "afternoon" := by
  decide

/-- C3 (counterexample): a keyword-free utterance at the type step yields
the default `"checkup"` *immediately* — extraction never fails at steps 3
and 4 — so on the very first attempt the machine stores the default and
advances instead of re-prompting. -/
theorem C3_immediate_default_at_type_step :
    extract_info_from_speech "tomorrow maybe" 3 = some "checkup" ∧
    process_speech ⟨3, some "Jane Doe", some "555-123-4567", none, none, 0⟩
        (some "tomorrow maybe") =
      ⟨4, some "Jane Doe", some "555-123-4567", some "checkup", none, 0⟩ := by
  decide

/-- C3 (amended): the attempt-gated default logic holds only for the name
and phone steps: there a failed extraction increments `attempts` and
re-prompts while `attempts + 1 < 2`, and stores the step's default and
advances once `attempts + 1 ≥ 2`; at the type and time steps the
extractor always returns a value (the default when no keyword matches),
so a first keyword-free utterance is immediately defaulted rather than
re-prompted. -/
theorem C3_attempt_logic :
    (∀ (cd : CallData) (s : String),
      truthy (some s) = true → (cd.step = 1 ∨ cd.step = 2) →
      extract_info_from_speech s cd.step = none →
        (cd.attempts = 0 → process_speech cd (some s) = { cd with attempts := 1 }) ∧
        (1 ≤ cd.attempts →
          process_speech cd (some s) =
            { applyDefault cd cd.step with step := cd.step + 1, attempts := 0 })) ∧
    (∀ s : String,
      (extract_info_from_speech s 3).isSome ∧ (extract_info_from_speech s 4).isSome) := by
  constructor
  · intro cd s hs hstep hext
    have hpos : decide (0 < cd.step) = true := by
      rcases hstep with h | h <;> simp [h]
    constructor
    · intro ha
      simp [process_speech, hs, hpos, hext, ha]
    · intro ha
      have h2 : 2 ≤ cd.attempts + 1 := by omega
      simp [process_speech, hs, hpos, hext, h2]
  · intro s
    constructor
    · show (extract_info_from_speech s 3).isSome = true
      unfold extract_info_from_speech
      norm_num
      split_ifs <;> rfl
    · show (extract_info_from_speech s 4).isSome = true
      unfold extract_info_from_speech
      norm_num
      split_ifs <;> rfl

/-- C3 (witness): a concrete first failed attempt at the name step:
`"no"` extracts nothing, so `attempts` goes to 1 and nothing else
changes. -/
theorem C3_attempt_logic_witness :
    process_speech ⟨1, none, none, none, none, 0⟩ (some "no") =
      { (⟨1, none, none, none, none, 0⟩ : CallData) with attempts := 1 } :=
  (C3_attempt_logic.1 ⟨1, none, none, none, none, 0⟩ "no" (by decide) (Or.inl rfl)
    (by decide)).1 rfl

/-- C4 (counterexample): with `fallback_to_human = false`, a reply whose
confidence `1/10` is below the configured threshold `7/10` is *not*
turned into a transfer — processing falls through and the raw AI text is
returned as the spoken response. -/
theorem C4_below_threshold_raw_text_spoken :
    (1 / 10 : ℚ) < 7 / 10 ∧
    process_voice_turn_reply ⟨7 / 10, false⟩ "Our office is open tomorrow at nine."
        (1 / 10) id false =
      ⟨true, "Our office is open tomorrow at nine.", false, false, 1 / 10⟩ := by
  constructor
  · norm_num
  · norm_num [process_voice_turn_reply]

/-- C4 (amended): when the computed confidence is below the tenant's
threshold *and* the tenant's `fallback_to_human` setting is enabled, the
turn's result is `_handle_low_confidence`'s fixed transfer response with
`transfer_to_human` set, and the AI reply text is not spoken. -/
theorem C4_transfer_when_low_confidence (cfg : VoiceConfig) (ai_response : String)
    (confidence : ℚ) (enhance : String → String) (intent_schedule : Bool)
    (hconf : confidence < cfg.confidence_threshold)
    (hfb : cfg.fallback_to_human = true) :
    process_voice_turn_reply cfg ai_response confidence enhance intent_schedule =
      handle_low_confidence confidence ∧
    (process_voice_turn_reply cfg ai_response confidence enhance
        intent_schedule).text_response = transfer_text ∧
    (process_voice_turn_reply cfg ai_response confidence enhance
        intent_schedule).transfer_to_human = true := by
  have h : process_voice_turn_reply cfg ai_response confidence enhance intent_schedule =
      handle_low_confidence confidence := by
    unfold process_voice_turn_reply
    rw [if_pos hconf, hfb]
    simp
  exact ⟨h, by rw [h]; rfl, by rw [h]; rfl⟩

/-- C4 (witness): the transfer branch at a concrete low-confidence
configuration. -/
theorem C4_transfer_witness :
    process_voice_turn_reply ⟨7 / 10, true⟩ "hello" (1 / 10) id false =
      handle_low_confidence (1 / 10) ∧
    (process_voice_turn_reply ⟨7 / 10, true⟩ "hello" (1 / 10) id false).text_response =
      transfer_text ∧
    (process_voice_turn_reply ⟨7 / 10, true⟩ "hello" (1 / 10) id false).transfer_to_human =
      true :=
  C4_transfer_when_low_confidence ⟨7 / 10, true⟩ "hello" (1 / 10) id false
    (by norm_num) rfl

/-- C5: any exception reaching the webhook's outermost handler is
converted into markup, never a bare HTTP error: the fixed-flow webhook
answers HTTP 200 with TwiML containing the technical-difficulty message
and a `<Hangup/>`, and the async endpoint's `except Exception` likewise
answers 200 with a say-then-hangup document. -/
theorem C5_exception_yields_graceful_markup :
    (∀ tenant_id e : String,
      (voice_webhook_render tenant_id (Except.error e)).status = 200 ∧
      strContains (voice_webhook_render tenant_id (Except.error e)).body
        "Please try calling back in a moment" = true ∧
      strContains (voice_webhook_render tenant_id (Except.error e)).body
        "<Hangup/>" = true) ∧
    (∀ e : PyExc,
      handle_voice_call_async_result (Except.error e) =
        (200, [Verb.say async_error_message, Verb.hangup])) := by
  constructor
  · intro tid e
    refine ⟨rfl, ?_, ?_⟩
    · show strContains error_twiml "Please try calling back in a moment" = true
      decide
    · show strContains error_twiml "<Hangup/>" = true
      decide
  · intro e
    rfl

/-- C6 (counterexample): when every attempt of `process_voice_async`
fails, the task finally *returns* its error dict instead of raising, so
Celery stores — and `get_voice_task_status` reports — the terminal state
`SUCCESS`, not the `FAILURE` the claim requires. -/
theorem C6_exhausted_retries_not_failure :
    celery_final_status (runTask alwaysFailing).2 = CeleryStatus.SUCCESS ∧
    CeleryStatus.SUCCESS ≠ CeleryStatus.FAILURE := by
  exact ⟨rfl, by decide⟩

/-- C6 (amended): the task retries at most `max_retries = 3` times with
exponentially increasing backoff (`10 * 2 ^ k` seconds, i.e. 10, 20, 40),
and is never retried forever; but once retries are exhausted it returns
the payload `{"success": False, "error": ...}` and its polled terminal
status is `SUCCESS`, not `FAILURE`. -/
theorem C6_bounded_exponential_backoff (fails : Nat → Option String)
    (hex : ∀ i, i ≤ max_retries → (fails i).isSome) :
    (runTask fails).1 = [10, 20, 40] ∧
    (runTask fails).2 = TaskEnd.returned ⟨false, fails max_retries⟩ ∧
    celery_final_status (runTask fails).2 = CeleryStatus.SUCCESS ∧
    (∀ g : Nat → Option String, (runTask g).1.length ≤ max_retries) := by
  obtain ⟨e0, h0⟩ := Option.isSome_iff_exists.mp (hex 0 (by decide))
  obtain ⟨e1, h1⟩ := Option.isSome_iff_exists.mp (hex 1 (by decide))
  obtain ⟨e2, h2⟩ := Option.isSome_iff_exists.mp (hex 2 (by decide))
  obtain ⟨e3, h3⟩ := Option.isSome_iff_exists.mp (hex 3 (by decide))
  have hrun : runTask fails = ([10, 20, 40], TaskEnd.returned ⟨false, some e3⟩) := by
    norm_num [runTask, driveTask, process_voice_async_attempt, h0, h1, h2, h3,
      max_retries, default_retry_delay]
  have hm : fails max_retries = some e3 := h3
  refine ⟨by rw [hrun], by rw [hrun, hm], by rw [hrun]; rfl, ?_⟩
  intro g
  simpa [runTask, max_retries] using driveTask_length_le g 4 0

/-- C6 (witness): the bounded-backoff behaviour at the always-failing
job. -/
theorem C6_backoff_witness :
    (runTask alwaysFailing).1 = [10, 20, 40] ∧
    celery_final_status (runTask alwaysFailing).2 = CeleryStatus.SUCCESS :=
  ⟨(C6_bounded_exponential_backoff alwaysFailing (fun _ _ => by simp [alwaysFailing])).1,
   (C6_bounded_exponential_backoff alwaysFailing
      (fun _ _ => by simp [alwaysFailing])).2.2.1⟩

/-- C7 (counterexample): the gather document rendered by the shared
`create_twiml_response` ends in a `Redirect` back to its own action URL
and contains no `Hangup`; served by the `process-async` endpoint to a
silent caller, the call is still going after five redirect follows — it
does not re-prompt exactly once and end gracefully. -/
theorem C7_silent_redirect_loop :
    runSilent async_no_input_server 5 async_no_input_doc = none ∧
    async_no_input_doc =
      [Verb.say async_no_input_message,
       Verb.gather 10 process_async_url,
       Verb.say "I didn\x27t hear anything. Please let me know how I can help you.",
       Verb.redirect process_async_url] := by
  decide

/-- C7 (amended): the fixed-flow webhook's continue markup does satisfy
the claim — on total silence it re-prompts exactly once after the first
gather and then speaks a goodbye and hangs up, for any server and any
redirect budget; the generic `create_twiml_response` gather markup
instead redirects back to its action URL, so a silent caller is
re-prompted without bound and the call never ends. -/
theorem C7_reprompt_once_then_hangup :
    (∀ (server : String → List Verb) (fuel : Nat) (tenant_id text : String),
      runSilent server fuel (fixed_flow_continue_verbs tenant_id text) =
        some [text, "I didn\x27t hear you. Let me try once more.",
          "Thank you for calling Demo Dental Practice. Please call back when you\x27re ready. Goodbye!"]) ∧
    (∀ fuel : Nat,
      runSilent async_no_input_server fuel async_no_input_doc = none) := by
  constructor
  · intro server fuel tid text
    cases fuel <;> rfl
  · intro fuel
    induction fuel with
    | zero => rfl
    | succ f ih =>
      have h : runSilent async_no_input_server (f + 1) async_no_input_doc =
          (runSilent async_no_input_server f async_no_input_doc).map
            (fun more =>
              [async_no_input_message,
               "I didn\x27t hear anything. Please let me know how I can help you."] ++
                more) := rfl
      rw [h, ih]
      rfl

/-- C8: within any single webhook turn the session's step never
decreases: after `generate_response`, the call's stored state is either
gone (the completion branch deletes it) or carries a step at least as
large as before the turn (a failed extraction below the attempt cap
re-enters the same step; extraction or attempt exhaustion advances it). -/
theorem C8_step_monotone (w : World) (call_id : String) (speech : Option String) :
    lookupState ((generate_response w call_id speech).2).call_states call_id = none ∨
    ∃ cd', lookupState ((generate_response w call_id speech).2).call_states call_id =
        some cd' ∧
      ((lookupState w.call_states call_id).getD freshCall).step ≤ cd'.step := by
  rcases respond_state w.appointments
      (process_speech ((lookupState w.call_states call_id).getD freshCall) speech) with
    h | ⟨cd2, h, hle⟩
  · left
    rw [generate_response_call_states, h]
    exact lookup_eraseState _ _
  · right
    refine ⟨cd2, ?_, le_trans (process_speech_step_le _ _) hle⟩
    rw [generate_response_call_states, h]
    exact lookup_setState _ _ _

/-- C9: a webhook request with an invalid provider signature is *not*
answered with an explicit unauthorized response: the endpoint's own
`HTTPException(401)` is swallowed by its `except Exception` handler,
which answers HTTP 200 with the technical-difficulties TwiML (processing
is aborted, but the rejection is converted into an ordinary success
response). -/
theorem C9_invalid_signature_answered_200 :
    ∀ (tenant_found config_found : Bool) (tenant_id greeting voice_name : String),
      handle_voice_call_async false tenant_found config_found tenant_id greeting
          voice_name =
        (200, [Verb.say async_error_message, Verb.hangup]) ∧
      (handle_voice_call_async false tenant_found config_found tenant_id greeting
          voice_name).1 ≠ 401 := by
  intro t c tid g v
  refine ⟨rfl, ?_⟩
  show (200 : Nat) ≠ 401
  decide

/-- C10: at the greeting step the orchestrator ignores any supplied
speech — no extraction, no slot write, no attempt increment — and always
returns the fixed greeting with the terminal flag false, merely setting
the step to 1. -/
theorem C10_greeting_ignores_input (w : World) (call_id : String)
    (speech : Option String) (cd : CallData)
    (hlk : lookupState w.call_states call_id = some cd) (hstep : cd.step = 0) :
    generate_response w call_id speech =
      ((greeting_text, false),
       ⟨setState w.call_states call_id { cd with step := 1 }, w.appointments⟩) := by
  obtain ⟨st, nm, ph, ty, tm, att⟩ := cd
  simp only [CallData.step] at hstep
  subst hstep
  simp [generate_response, hlk, process_speech, respond]

/-- C10 (witness): a concrete greeting-step call with speech supplied. -/
theorem C10_greeting_witness :
    generate_response c10_world "c0" (some "I would like to book right now") =
      ((greeting_text, false),
       ⟨setState c10_world.call_states "c0" { freshCall with step := 1 },
        c10_world.appointments⟩) :=
  C10_greeting_ignores_input c10_world "c0" (some "I would like to book right now")
    freshCall (by decide) rfl

end VoiceAI
